import Mathlib

/-!
# MessagePack-RPC server core (`src/msgpack_rpc`)

A shallow embedding of `msgpack_rpc_handle_msg` (`server.c`), of the error
catalog (`common.h`) and of the handler-side checking code of `server_defs.h`,
followed by the properties established about them.

Conventions of the embedding

* A decoded value (`msgpack_object` of msgpack-c) is an inductive type; `type`
  gives its tag.  Reading `via.array` / `via.raw` of a value with another tag and
  indexing `ptr[i]` past `size` are faults, so that guarded reads can be told
  from unguarded ones.
* Reading `via.u64` is a read of the 64-bit word of the union.  For the two
  integer tags and for `double` that word is fixed by the value; for the other
  tags it depends on what the decoder left in the union and is supplied by an
  `overlay` function over which every statement is universally quantified.
* `uint32_t`, `uint64_t`, `int64_t` are `Nat` / `Int` with explicit `% 2 ^ w`.
* A `msgpack_packer *` is `Option Nat`: `none` is `NULL`, `some a` the packer at
  address `a`.  Calls made and the store `*res = NULL` are recorded, in program
  order, in a list of `Effect`s; what a packer holds is the list of the items
  packed into it.
-/

set_option linter.unusedVariables false
set_option autoImplicit false

namespace MsgpackRPC

/-! ## Value model (msgpack-c `msgpack_object`) -/

/-- Tags of decoded values, `msgpack_object_type`. -/
inductive msgpack_object_type where
  | NIL
  | BOOLEAN
  | POSITIVE_INTEGER
  | NEGATIVE_INTEGER
  | DOUBLE
  | RAW
  | ARRAY
  | MAP
  deriving DecidableEq, Repr

/-- Decoded values.  `positive_integer` carries the `uint64_t` member `u64`,
`negative_integer` the `int64_t` member `i64`, `double` the 64 bits of the
member `dec`, `raw` the bytes, `array` the elements (`size` is the length). -/
inductive msgpack_object where
  | nil
  | boolean (b : Bool)
  | positive_integer (u64 : Nat)
  | negative_integer (i64 : Int)
  | double (dec : Nat)
  | raw (bytes : List Nat)
  | array (ptr : List msgpack_object)
  | map (ptr : List (msgpack_object × msgpack_object))

/-- The `type` field of a decoded value. -/
def msgpack_object.type : msgpack_object → msgpack_object_type
  | .nil => .NIL
  | .boolean _ => .BOOLEAN
  | .positive_integer _ => .POSITIVE_INTEGER
  | .negative_integer _ => .NEGATIVE_INTEGER
  | .double _ => .DOUBLE
  | .raw _ => .RAW
  | .array _ => .ARRAY
  | .map _ => .MAP

/-- Modelled from the spec: `MSGPACK_OBJECT_POSITIVE_RAW`, the tag `server.c`
compares element 2 with, is declared nowhere (msgpack-c has `MSGPACK_OBJECT_RAW`
only); the spec reads it as the raw-bytes tag. -/
def MSGPACK_OBJECT_POSITIVE_RAW : msgpack_object_type := .RAW

/-- Ways in which a run leaves defined behaviour. -/
inductive Fault where
  /-- `ptr[i]` with `i` not below `size` -/
  | out_of_range
  /-- `via.array` or `via.raw` read on a value with another tag -/
  | wrong_member
  /-- call through a `NULL` function pointer -/
  | null_call
  deriving DecidableEq, Repr

/-- Read of `via.array` (both `size` and `ptr`). -/
def via_array : msgpack_object → Except Fault (List msgpack_object)
  | .array ptr => .ok ptr
  | _ => .error .wrong_member

/-- Read of `via.raw`. -/
def via_raw : msgpack_object → Except Fault (List Nat)
  | .raw bytes => .ok bytes
  | _ => .error .wrong_member

/-- Indexing `ptr[i]`. -/
def ptr_at (ptr : List msgpack_object) (i : Nat) : Except Fault msgpack_object :=
  match ptr[i]? with
  | some e => .ok e
  | none => .error .out_of_range

/-- Read of `via.u64`: the 64-bit word of the union.  `overlay` gives the word
for the tags whose member does not determine it. -/
def via_u64 (overlay : msgpack_object → Nat) : msgpack_object → Nat
  | .positive_integer u64 => u64
  | .negative_integer i64 => (i64 % 2 ^ 64).toNat
  | .double dec => dec
  | o => overlay o

/-- Read of `via.i64`: the same 64-bit word taken as a two's-complement
`int64_t`. -/
def via_i64 (overlay : msgpack_object → Nat) : msgpack_object → Int
  | .negative_integer i64 => i64
  | o =>
    let w : Nat := via_u64 overlay o % 2 ^ 64
    if w < 2 ^ 63 then (w : Int) else (w : Int) - 2 ^ 64

/-! ## `common.h` -/

/-- The enum `neovim_rpc_message_types`. -/
def kRequestRPCMessageType : Nat := 0

/-- The enum `neovim_rpc_message_types`. -/
def kResponseRPCMessageType : Nat := 1

/-- The enum `neovim_rpc_message_types`. -/
def kNotificationRPCMessageType : Nat := 2

/-- The enum `NeovimRPCErrorCode`. -/
inductive NeovimRPCErrorCode where
  | kNeovimRPCError
  | kNeovimRPCMalformedMessageError
  | kNeovimRPCNoMethodError
  | kNeovimRPCWrongNumOfParamsError
  | kNeovimRPCWrongParamTypeError
  deriving DecidableEq, Repr

/-- Integer value of an error code. -/
def NeovimRPCErrorCode.toNat : NeovimRPCErrorCode → Nat
  | .kNeovimRPCError => 0
  | .kNeovimRPCMalformedMessageError => 1
  | .kNeovimRPCNoMethodError => 2
  | .kNeovimRPCWrongNumOfParamsError => 3
  | .kNeovimRPCWrongParamTypeError => 4

/-- The table `neovim_rpc_error_name[]`. -/
def neovim_rpc_error_name : NeovimRPCErrorCode → String
  | .kNeovimRPCError => "NeovimeRPCError"
  | .kNeovimRPCMalformedMessageError => "NeovimRPCMalformedMessageError"
  | .kNeovimRPCNoMethodError => "NeovimRPCNoMethodError"
  | .kNeovimRPCWrongNumOfParamsError => "NeovimRPCWrongNumOfParamsError"
  | .kNeovimRPCWrongParamTypeError => "NeovimRPCWrongParamTypeError"

/-- The struct `NeovimRPCError`. -/
structure NeovimRPCError where
  code : NeovimRPCErrorCode
  name : String
  message : String
  deriving DecidableEq, Repr

/-! ## `server.c` -/

/-- The constant `msgpack_rpc_malformed_msg_error`. -/
def msgpack_rpc_malformed_msg_error : NeovimRPCError where
  code := .kNeovimRPCMalformedMessageError
  name := "NeovimRPCMalformedMessageError"
  message :=
    "MessagePack-RPC message does not follow the standard format ([type, msgid, method, params]) or is invalid."

/-- What one call of a packing function of msgpack-c appends to a packer: the
header of an array of `n` elements, a `uint32_t`, nil, or `l` raw bytes taken
from `b`. -/
inductive PackItem where
  | array (n : Nat)
  | uint32 (d : Nat)
  | nil
  | raw (b : List Nat) (l : Nat)
  deriving DecidableEq, Repr

/-- What a run does besides returning: the calls it makes and the store
`*res = NULL`, in program order. -/
inductive Effect where
  /-- a call of `msgpack_pack_array`, `msgpack_pack_uint32`, `msgpack_pack_nil`
  or `msgpack_pack_raw` on the packer `pk` -/
  | pack (pk : Option Nat) (item : PackItem)
  /-- `msgpack_rpc_build_error_res(message_id, &err, res)` -/
  | build_error_res (message_id : Nat) (err : NeovimRPCError) (res : Option Nat)
  /-- `*res = NULL` -/
  | store_res_null
  /-- `msgpack_rpc_lookup_method_handler(method)` -/
  | lookup_method_handler (method : List Nat)
  /-- `handle_message_fn(params, *res)` -/
  | call_handler (params : List msgpack_object) (res : Option Nat)

/-- Result of a run of `msgpack_rpc_handle_msg`: the value returned (or the
fault), the value of `*res` afterwards, and the effects. -/
structure Outcome where
  ret : Except Fault Bool
  res : Option Nat
  trace : List Effect

/-- Type of `handle_message_fn` as `server.c` calls it: two arguments,
`(params, *res)`, and a `bool` result. -/
abbrev handle_message_fn_t := List msgpack_object → Option Nat → Bool

/-- The condition of the `if` at `server.c:22-29`, with the short-circuit order
of the source: `true` when the basic structure is rejected. -/
def shape_check_fails (overlay : msgpack_object → Nat) (msg : msgpack_object) :
    Except Fault Bool :=
  if msg.type ≠ .ARRAY then pure true else do
    let a ← via_array msg
    if a.length ≠ 4 then pure true else do
      let e0 ← ptr_at a 0
      if e0.type ≠ .POSITIVE_INTEGER then pure true else
      if via_u64 overlay e0 ≠ kRequestRPCMessageType ∧
          via_u64 overlay e0 ≠ kNotificationRPCMessageType then pure true else do
        let e1 ← ptr_at a 1
        if e1.type ≠ .POSITIVE_INTEGER then pure true else do
          let e2 ← ptr_at a 2
          if e2.type ≠ MSGPACK_OBJECT_POSITIVE_RAW then pure true else do
            let e3 ← ptr_at a 3
            if e3.type ≠ .ARRAY then pure true else pure false

/-- The local `is_notification` of `server.c:30-34`; the read of `u64` is not
preceded by a test of the tag of element 0. -/
def is_notification (overlay : msgpack_object → Nat) (msg : msgpack_object) :
    Except Fault Bool :=
  if msg.type = .ARRAY then do
    let a ← via_array msg
    if a.length ≥ 1 then do
      let e0 ← ptr_at a 0
      pure (decide (via_u64 overlay e0 = kNotificationRPCMessageType))
    else pure false
  else pure false

/-- The local `message_id` of `server.c:39-50`. -/
def recover_message_id (overlay : msgpack_object → Nat) (msg : msgpack_object) :
    Except Fault Nat :=
  if msg.type = .ARRAY then do
    let a ← via_array msg
    if a.length ≥ 2 then do
      let e1 ← ptr_at a 1
      if e1.type = .POSITIVE_INTEGER ∨ e1.type = .NEGATIVE_INTEGER then
        if e1.type = .POSITIVE_INTEGER then
          pure (via_u64 overlay e1 % 2 ^ 32)
        else
          pure (via_i64 overlay e1 % 2 ^ 32).toNat
      else pure 0
    else pure 0
  else pure 0

/-- The locals `type`, `message_id`, `method`, `params` of `server.c:58-61`. -/
def request_fields (overlay : msgpack_object → Nat) (msg : msgpack_object) :
    Except Fault (Nat × Nat × List Nat × List msgpack_object) := do
  let a ← via_array msg
  let e0 ← ptr_at a 0
  let e1 ← ptr_at a 1
  let e2 ← ptr_at a 2
  let e3 ← ptr_at a 3
  let method ← via_raw e2
  let params ← via_array e3
  pure (via_u64 overlay e0 % 2 ^ 32, via_u64 overlay e1 % 2 ^ 32, method, params)

/-- The function `msgpack_rpc_handle_msg` of `server.c`.
`msgpack_rpc_lookup_method_handler` is declared in no file of the source; it
is the argument `lookup`, a function pointer being `none` when `NULL`. -/
def msgpack_rpc_handle_msg (overlay : msgpack_object → Nat)
    (lookup : List Nat → Option handle_message_fn_t)
    (msg : msgpack_object) (res : Option Nat) : Outcome :=
  match shape_check_fails overlay msg with
  | .error f => ⟨.error f, res, []⟩
  | .ok true =>
    match is_notification overlay msg with
    | .error f => ⟨.error f, res, []⟩
    | .ok true => ⟨.ok false, none, [.store_res_null]⟩
    | .ok false =>
      match recover_message_id overlay msg with
      | .error f => ⟨.error f, res, []⟩
      | .ok message_id =>
        ⟨.ok false, res,
          [.build_error_res message_id msgpack_rpc_malformed_msg_error res]⟩
  | .ok false =>
    match request_fields overlay msg with
    | .error f => ⟨.error f, res, []⟩
    | .ok (type, message_id, method, params) =>
      let handle_message_fn := lookup method
      let is_ntf : Bool := decide (type = kNotificationRPCMessageType)
      let res1 : Option Nat := if is_ntf then none else res
      let stores : List Effect := if is_ntf then [.store_res_null] else []
      match handle_message_fn with
      | none => ⟨.error .null_call, res1, .lookup_method_handler method :: stores⟩
      | some fn =>
        ⟨.ok (fn params res1), res1,
          .lookup_method_handler method :: stores ++ [.call_handler params res1]⟩

/-! ## Reference descriptions used in the statements -/

/-- Shape accepted by the structure check, written as a pattern. -/
def well_shaped : msgpack_object → Bool
  | .array [.positive_integer t, .positive_integer _, .raw _, .array _] =>
    t == 0 || t == 2
  | _ => false

/-- The recovered msgid as the specification words it: `v mod 2 ^ 32` for a
positive element 1, the low 32 bits of the 64-bit two's-complement
representation for a negative element 1, `0` in every other case. -/
def recovered_msgid : msgpack_object → Nat
  | .array (_ :: .positive_integer v :: _) => v % 2 ^ 32
  | .array (_ :: .negative_integer v :: _) => (v % 2 ^ 64).toNat % 2 ^ 32
  | _ => 0

/-- Bytes of an ASCII string literal. -/
def ascii_bytes (s : String) : List Nat := s.toList.map Char.toNat

/-! ## `server_defs.h` -/

/-- What is in scope where the checking code of a handler is expanded: the
parameters `message_id`, `params`, `res` of
`MSGPACK_RPC_METHOD_HANDLER_SIGNATURE`, and `req`, an identifier the checks
test and no file of the source declares. -/
structure HandlerScope where
  message_id : Nat
  params : List msgpack_object
  res : Option Nat
  req : Bool

/-- Result of a run of the code of a handler: the value returned (or the
fault) and the effects. -/
structure HandlerOutcome where
  ret : Except Fault Bool
  trace : List Effect

/-- Modelled from the spec: the constant `wrong_number_of_params_error`, which
`MSGPACK_RPC_CHECK_PARAMS_LEN` names and no file of the source defines.  The
spec gives it the code `wrong_param_count`; its name is the catalog's name for
that code and the text of its message is the argument. -/
def wrong_number_of_params_error (message : String) : NeovimRPCError where
  code := .kNeovimRPCWrongNumOfParamsError
  name := neovim_rpc_error_name .kNeovimRPCWrongNumOfParamsError
  message := message

/-- The statement `MSGPACK_RPC_CHECK_PARAMS_LEN(len)`, followed by `rest`. -/
def MSGPACK_RPC_CHECK_PARAMS_LEN (message : String) (s : HandlerScope) (len : Nat)
    (rest : HandlerOutcome) : HandlerOutcome :=
  if s.params.length ≠ len then
    ⟨.ok false,
      if s.req then
        [.build_error_res s.message_id (wrong_number_of_params_error message) s.res]
      else []⟩
  else rest

/-- The constant `expected_<idl_type>_param_error` that
`MSGPACK_RPC_DECLARE_EXPECTED_TYPE_ERROR(idl_type)` declares and
`MSGPACK_RPC_EXPECTED_TYPE_ERROR(idl_type)` names.  The message is the text of
the source with the type name put between its two pieces. -/
def MSGPACK_RPC_EXPECTED_TYPE_ERROR (idl_type : String) : NeovimRPCError where
  code := .kNeovimRPCWrongParamTypeError
  name := "kNeovimRPCWrongParamTypeError"
  message := "Wrong parameter type: expected" ++ idl_type ++ "."

/-- The statement `MSGPACK_RPC_CHECK_PARAM_TYPE(idx, idl_type, msgpack_type_id)`,
followed by `rest`. -/
def MSGPACK_RPC_CHECK_PARAM_TYPE (s : HandlerScope) (idx : Nat) (idl_type : String)
    (msgpack_type_id : msgpack_object_type) (rest : HandlerOutcome) : HandlerOutcome :=
  match ptr_at s.params idx with
  | .error f => ⟨.error f, []⟩
  | .ok p =>
    if p.type ≠ msgpack_type_id then
      ⟨.ok false,
        if s.req then
          [.build_error_res s.message_id (MSGPACK_RPC_EXPECTED_TYPE_ERROR idl_type) s.res]
        else []⟩
    else rest

/-- The IDL types for which a `MSGPACK_RPC_UNPACK_PARAM_` definition exists. -/
inductive idl_type where
  | uint
  | raw
  deriving DecidableEq, Repr

/-- The identifier of an IDL type, as pasted into the names of the source. -/
def idl_type.name : idl_type → String
  | .uint => "uint"
  | .raw => "raw"

/-- The tag that the `MSGPACK_RPC_UNPACK_PARAM_` definition of an IDL type
checks. -/
def idl_type.unpack_type_id : idl_type → msgpack_object_type
  | .uint => .POSITIVE_INTEGER
  | .raw => .RAW

/-- The local `p_<idx>` that an unpacking statement declares: a `uint32_t`, or
the result of `xstrndup(ptr, size)`, kept as the two arguments of the call. -/
inductive Unpacked where
  | uint (p : Nat)
  | raw (ptr : List Nat) (size : Nat)

/-- The statements `MSGPACK_RPC_UNPACK_PARAM_uint(idx)`, followed by `rest`,
which may use the local `p_<idx>`. -/
def MSGPACK_RPC_UNPACK_PARAM_uint (overlay : msgpack_object → Nat) (s : HandlerScope)
    (idx : Nat) (rest : Nat → HandlerOutcome) : HandlerOutcome :=
  MSGPACK_RPC_CHECK_PARAM_TYPE s idx "uint" .POSITIVE_INTEGER
    (match ptr_at s.params idx with
    | .error f => ⟨.error f, []⟩
    | .ok p => rest (via_i64 overlay p % 2 ^ 32).toNat)

/-- The statements `MSGPACK_RPC_UNPACK_PARAM_raw(idx)`, followed by `rest`.  The
source passes two arguments to the three-argument check, the index being left
out; it is restored here. -/
def MSGPACK_RPC_UNPACK_PARAM_raw (s : HandlerScope) (idx : Nat)
    (rest : List Nat → Nat → HandlerOutcome) : HandlerOutcome :=
  MSGPACK_RPC_CHECK_PARAM_TYPE s idx "raw" .RAW
    (match ptr_at s.params idx with
    | .error f => ⟨.error f, []⟩
    | .ok p =>
      match via_raw p with
      | .error f => ⟨.error f, []⟩
      | .ok bytes => rest bytes bytes.length)

/-- The statements `MSGPACK_RPC_CHECK_AND_UNPACK_PARAM(idx, idl_type,
msgpack_type_id)`, followed by `rest`. -/
def MSGPACK_RPC_CHECK_AND_UNPACK_PARAM (overlay : msgpack_object → Nat) (s : HandlerScope)
    (idx : Nat) (t : idl_type) (msgpack_type_id : msgpack_object_type)
    (rest : Unpacked → HandlerOutcome) : HandlerOutcome :=
  MSGPACK_RPC_CHECK_PARAM_TYPE s idx t.name msgpack_type_id
    (match t with
    | .uint => MSGPACK_RPC_UNPACK_PARAM_uint overlay s idx (fun p => rest (.uint p))
    | .raw => MSGPACK_RPC_UNPACK_PARAM_raw s idx (fun ptr size => rest (.raw ptr size)))

/-- The statements `MSGPACK_RPC_CHECK_AND_UNPACK_PARAM` for the positions `idx`,
`idx + 1`, ... with the declared types `decl`, in order, followed by the body
of the handler, which may use the locals declared. -/
def check_and_unpack_params (overlay : msgpack_object → Nat) (s : HandlerScope) :
    Nat → List (idl_type × msgpack_object_type) → (List Unpacked → HandlerOutcome) →
      HandlerOutcome
  | _, [], body => body []
  | idx, (t, msgpack_type_id) :: decl, body =>
    MSGPACK_RPC_CHECK_AND_UNPACK_PARAM overlay s idx t msgpack_type_id
      (fun p => check_and_unpack_params overlay s (idx + 1) decl (fun ps => body (p :: ps)))

/-- The local that the unpacking statements for the IDL type `t` declare from
the parameter `q`, when `q` has passed their check. -/
def unpacked_local (overlay : msgpack_object → Nat) (t : idl_type) (q : msgpack_object) :
    Unpacked :=
  match t, q with
  | .uint, q => .uint (via_i64 overlay q % 2 ^ 32).toNat
  | .raw, .raw bytes => .raw bytes bytes.length
  | .raw, _ => .raw [] 0

/-- The effects of a check that fails: one call of
`msgpack_rpc_build_error_res` when `req` is set, none otherwise. -/
def error_effects (s : HandlerScope) (err : NeovimRPCError) : List Effect :=
  if s.req then [.build_error_res s.message_id err s.res] else []

/-! ## Building a success Response (`server_defs.h`, `common.h`) -/

/-- The call `msgpack_pack_array(pk, n)`. -/
def msgpack_pack_array (pk : Option Nat) (n : Nat) : Effect := .pack pk (.array n)

/-- The call `msgpack_pack_uint32(pk, d)`; the argument is converted to
`uint32_t`. -/
def msgpack_pack_uint32 (pk : Option Nat) (d : Nat) : Effect := .pack pk (.uint32 (d % 2 ^ 32))

/-- The call `msgpack_pack_nil(pk)`. -/
def msgpack_pack_nil (pk : Option Nat) : Effect := .pack pk .nil

/-- The call `msgpack_pack_raw(pk, v, l)`. -/
def msgpack_pack_raw (pk : Option Nat) (v : List Nat) (l : Nat) : Effect := .pack pk (.raw v l)

/-- The function `strlen` on the bytes found at a `char *`: the number of bytes
before the first zero byte. -/
def strlen (v : List Nat) : Nat := (v.takeWhile (fun c => c != 0)).length

/-- The statements `MSGPACK_RPC_PACK_uint(v, p)` of `common.h`. -/
def MSGPACK_RPC_PACK_uint (v : Nat) (p : Option Nat) : List Effect :=
  [msgpack_pack_uint32 p v]

/-- The statements `MSGPACK_RPC_PACK_raw(v, p)` of `common.h`. -/
def MSGPACK_RPC_PACK_raw (v : List Nat) (p : Option Nat) : List Effect :=
  [msgpack_pack_raw p v (strlen v)]

/-- A result of an API function together with its IDL type, for the two scalar
IDL types that have a `MSGPACK_RPC_PACK_` definition. -/
inductive ApiResult where
  | uint (v : Nat)
  | raw (v : List Nat)

/-- The statements `MSGPACK_RPC_INIT_SUCCESS_RES(res)`; `message_id` is the
parameter of the handler. -/
def MSGPACK_RPC_INIT_SUCCESS_RES (s : HandlerScope) (res : Option Nat) : List Effect :=
  [msgpack_pack_array res 4,
   msgpack_pack_uint32 res kResponseRPCMessageType,
   msgpack_pack_uint32 res s.message_id,
   msgpack_pack_nil res]

/-- The statements `MSGPACK_RPC_SUCCESS_RES_RESULT(idl_type, api_result, res)`,
which end with `return true`. -/
def MSGPACK_RPC_SUCCESS_RES_RESULT (s : HandlerScope) (api_result : ApiResult)
    (res : Option Nat) : HandlerOutcome :=
  ⟨.ok true,
    if res.isSome then
      MSGPACK_RPC_INIT_SUCCESS_RES s res ++
        (match api_result with
        | .uint v => MSGPACK_RPC_PACK_uint v res
        | .raw v => MSGPACK_RPC_PACK_raw v res)
    else []⟩

/-- The statements `MSGPACK_RPC_SUCCESS_RES_RESULT_VOID(res)`, which end with
`return true`. -/
def MSGPACK_RPC_SUCCESS_RES_RESULT_VOID (s : HandlerScope) (res : Option Nat) :
    HandlerOutcome :=
  ⟨.ok true,
    if res.isSome then MSGPACK_RPC_INIT_SUCCESS_RES s res ++ [msgpack_pack_nil res] else []⟩

/-- The items appended to the packer at address `a` by a sequence of effects. -/
def packed (a : Nat) (trace : List Effect) : List PackItem :=
  trace.filterMap fun e =>
    match e with
    | .pack (some b) item => if b = a then some item else none
    | _ => none

/-- Modelled from the spec: the decode routine of the MessagePack library, which
is outside the source, taken on the sequence of packed items instead of on
their bytes.  `unpack_many fuel n items` reads `n` values from the front of
`items` and gives them with the items left over; an array header of `m` is
followed by its `m` elements. -/
def unpack_many : Nat → Nat → List PackItem → Option (List msgpack_object × List PackItem)
  | _, 0, items => some ([], items)
  | 0, _ + 1, _ => none
  | _ + 1, _ + 1, [] => none
  | fuel + 1, n + 1, item :: rest =>
    match item with
    | .nil => (unpack_many fuel n rest).map fun r => (.nil :: r.1, r.2)
    | .uint32 d => (unpack_many fuel n rest).map fun r => (.positive_integer d :: r.1, r.2)
    | .raw b l => (unpack_many fuel n rest).map fun r => (.raw (b.take l) :: r.1, r.2)
    | .array m =>
      match unpack_many fuel m rest with
      | none => none
      | some (xs, rest1) =>
        (unpack_many fuel n rest1).map fun r => (.array xs :: r.1, r.2)

/-- Modelled from the spec: decoding of a whole sequence of packed items into
the one value it holds. -/
def msgpack_unpack (items : List PackItem) : Option msgpack_object :=
  match unpack_many (items.length + 1) 1 items with
  | some ([x], []) => some x
  | _ => none

/-! ## Lemmas on the structure check and the dispatcher -/


theorem shape_check_fails_array4 (overlay : msgpack_object → Nat)
    (e0 e1 e2 e3 : msgpack_object) :
    shape_check_fails overlay (.array [e0, e1, e2, e3]) =
      .ok (!well_shaped (.array [e0, e1, e2, e3])) := by
  cases e0 <;> simp [shape_check_fails, well_shaped, msgpack_object.type, via_array, ptr_at,
    bind, Except.bind, pure, Except.pure, via_u64, kRequestRPCMessageType,
    kNotificationRPCMessageType, MSGPACK_OBJECT_POSITIVE_RAW]
  rename_i t
  by_cases h0 : t = 0
  · subst h0
    cases e1 <;> simp [msgpack_object.type]
    cases e2 <;> simp [msgpack_object.type]
    cases e3 <;> simp [msgpack_object.type]
  · by_cases h2 : t = 2
    · subst h2
      cases e1 <;> simp [msgpack_object.type]
      cases e2 <;> simp [msgpack_object.type]
      cases e3 <;> simp [msgpack_object.type]
    · simp [h0, h2]
      split
      · rename_i heq
        simp at heq
        simp_all
      · rfl

theorem shape_check_fails_eq (overlay : msgpack_object → Nat) (msg : msgpack_object) :
    shape_check_fails overlay msg = .ok (!well_shaped msg) := by
  cases msg with
  | array a =>
    rcases a with _ | ⟨e0, _ | ⟨e1, _ | ⟨e2, _ | ⟨e3, _ | ⟨e4, r⟩⟩⟩⟩⟩
    case cons.cons.cons.cons.nil => exact shape_check_fails_array4 overlay e0 e1 e2 e3
    all_goals simp [shape_check_fails, well_shaped, msgpack_object.type, via_array,
      bind, Except.bind, pure, Except.pure]
  | _ => simp [shape_check_fails, well_shaped, msgpack_object.type, pure, Except.pure]

theorem well_shaped_iff (msg : msgpack_object) :
    well_shaped msg = true ↔
      ∃ t id method params,
        msg = .array [.positive_integer t, .positive_integer id, .raw method, .array params] ∧
          (t = 0 ∨ t = 2) := by
  unfold well_shaped
  split
  · rename_i t id method params
    simp
  · rename_i hne
    simp only [Bool.false_eq_true, false_iff]
    rintro ⟨t, id, method, params, rfl, -⟩
    exact hne t id method params rfl

theorem is_notification_cons (overlay : msgpack_object → Nat) (e0 : msgpack_object)
    (rest : List msgpack_object) :
    is_notification overlay (.array (e0 :: rest)) =
      .ok (decide (via_u64 overlay e0 = kNotificationRPCMessageType)) := by
  simp [is_notification, msgpack_object.type, via_array, ptr_at, bind, Except.bind, pure,
    Except.pure]

theorem request_fields_well_shaped (overlay : msgpack_object → Nat) (t id : Nat)
    (method : List Nat) (params : List msgpack_object) :
    request_fields overlay
        (.array [.positive_integer t, .positive_integer id, .raw method, .array params]) =
      .ok (t % 2 ^ 32, id % 2 ^ 32, method, params) := by
  simp [request_fields, via_array, via_raw, ptr_at, via_u64, bind, Except.bind, pure,
    Except.pure]

theorem handle_msg_request (overlay : msgpack_object → Nat)
    (lookup : List Nat → Option handle_message_fn_t) (id : Nat) (method : List Nat)
    (params : List msgpack_object) (res : Option Nat) :
    msgpack_rpc_handle_msg overlay lookup
        (.array [.positive_integer 0, .positive_integer id, .raw method, .array params]) res =
      match lookup method with
      | none => ⟨.error .null_call, res, [.lookup_method_handler method]⟩
      | some fn =>
        ⟨.ok (fn params res), res, [.lookup_method_handler method, .call_handler params res]⟩ := by
  simp only [msgpack_rpc_handle_msg, shape_check_fails_eq, request_fields_well_shaped]
  cases lookup method <;> simp [well_shaped, kNotificationRPCMessageType]

theorem handle_msg_notification4 (overlay : msgpack_object → Nat)
    (lookup : List Nat → Option handle_message_fn_t) (id : Nat) (method : List Nat)
    (params : List msgpack_object) (res : Option Nat) :
    msgpack_rpc_handle_msg overlay lookup
        (.array [.positive_integer 2, .positive_integer id, .raw method, .array params]) res =
      match lookup method with
      | none => ⟨.error .null_call, none, [.lookup_method_handler method, .store_res_null]⟩
      | some fn =>
        ⟨.ok (fn params none), none,
          [.lookup_method_handler method, .store_res_null, .call_handler params none]⟩ := by
  simp only [msgpack_rpc_handle_msg, shape_check_fails_eq, request_fields_well_shaped]
  cases lookup method <;> simp [well_shaped, kNotificationRPCMessageType]

theorem handle_msg_malformed (overlay : msgpack_object → Nat)
    (lookup : List Nat → Option handle_message_fn_t) (msg : msgpack_object) (res : Option Nat)
    (h : well_shaped msg = false) :
    msgpack_rpc_handle_msg overlay lookup msg res =
      match is_notification overlay msg with
      | .error f => ⟨.error f, res, []⟩
      | .ok true => ⟨.ok false, none, [.store_res_null]⟩
      | .ok false =>
        match recover_message_id overlay msg with
        | .error f => ⟨.error f, res, []⟩
        | .ok message_id =>
          ⟨.ok false, res,
            [.build_error_res message_id msgpack_rpc_malformed_msg_error res]⟩ := by
  simp [msgpack_rpc_handle_msg, shape_check_fails_eq, h]

theorem low32_of_int (v : Int) : ((v % 2 ^ 64).toNat) % 2 ^ 32 = (v % 2 ^ 32).toNat := by
  omega

theorem recover_message_id_eq (overlay : msgpack_object → Nat) (msg : msgpack_object) :
    recover_message_id overlay msg = .ok (recovered_msgid msg) := by
  cases msg with
  | array a =>
    rcases a with _ | ⟨e0, _ | ⟨e1, rest⟩⟩
    · simp [recover_message_id, recovered_msgid, msgpack_object.type, via_array, bind,
        Except.bind, pure, Except.pure]
    · simp [recover_message_id, recovered_msgid, msgpack_object.type, via_array, bind,
        Except.bind, pure, Except.pure]
    · cases e1 <;>
        simp [recover_message_id, recovered_msgid, msgpack_object.type, via_array, ptr_at,
          via_u64, via_i64, bind, Except.bind, pure, Except.pure]
      exact (low32_of_int _).symm
  | _ => simp [recover_message_id, recovered_msgid, msgpack_object.type, pure, Except.pure]

/-- C1: an array whose element 0 is the positive integer 2 never makes
`msgpack_rpc_handle_msg` call `msgpack_rpc_build_error_res`; `*res` is `NULL`
afterwards, the store `*res = NULL` precedes the call of the handler, and the
handler, when one is called, receives `NULL` as its sink, whatever the
remaining elements are. -/
theorem notification_tag_suppresses_response (overlay : msgpack_object → Nat)
    (lookup : List Nat → Option handle_message_fn_t) (rest : List msgpack_object)
    (res : Option Nat) :
    (msgpack_rpc_handle_msg overlay lookup (.array (.positive_integer 2 :: rest)) res).res
        = none ∧
    (∀ message_id err r, Effect.build_error_res message_id err r ∉
      (msgpack_rpc_handle_msg overlay lookup (.array (.positive_integer 2 :: rest)) res).trace) ∧
    ((msgpack_rpc_handle_msg overlay lookup (.array (.positive_integer 2 :: rest)) res).trace
        = [.store_res_null] ∨
      ∃ method params,
        (msgpack_rpc_handle_msg overlay lookup (.array (.positive_integer 2 :: rest)) res).trace
            = [.lookup_method_handler method, .store_res_null] ∨
        (msgpack_rpc_handle_msg overlay lookup (.array (.positive_integer 2 :: rest)) res).trace
            = [.lookup_method_handler method, .store_res_null, .call_handler params none]) := by
  cases hws : well_shaped (.array (.positive_integer 2 :: rest)) with
  | true =>
    obtain ⟨t, id, method, params, heq, -⟩ := (well_shaped_iff _).1 hws
    simp only [msgpack_object.array.injEq, List.cons.injEq,
      msgpack_object.positive_integer.injEq] at heq
    obtain ⟨rfl, rfl⟩ := heq
    rw [handle_msg_notification4]
    cases lookup method with
    | none => exact ⟨rfl, by simp, Or.inr ⟨method, params, Or.inl rfl⟩⟩
    | some fn => exact ⟨rfl, by simp, Or.inr ⟨method, params, Or.inr rfl⟩⟩
  | false =>
    rw [handle_msg_malformed overlay lookup _ res hws, is_notification_cons]
    simp [via_u64, kNotificationRPCMessageType]

/-- C2: `msgpack_rpc_handle_msg` passes the structure check, leaves `*res` as it
was, performs no store `*res = NULL` and starts with the method lookup exactly
when the value is a 4-element array `[0, id, method, params]` with element 0 and
element 1 positive integers, element 2 raw bytes and element 3 an array. -/
theorem request_accepted_iff (overlay : msgpack_object → Nat)
    (lookup : List Nat → Option handle_message_fn_t) (msg : msgpack_object)
    (res : Option Nat) :
    (shape_check_fails overlay msg = .ok false ∧
      (msgpack_rpc_handle_msg overlay lookup msg res).res = res ∧
      Effect.store_res_null ∉ (msgpack_rpc_handle_msg overlay lookup msg res).trace ∧
      ∃ method, (msgpack_rpc_handle_msg overlay lookup msg res).trace.head? =
        some (.lookup_method_handler method)) ↔
    ∃ id method params,
      msg = .array [.positive_integer 0, .positive_integer id, .raw method, .array params] := by
  constructor
  · rintro ⟨hshape, -, hstore, -⟩
    rw [shape_check_fails_eq] at hshape
    have hws : well_shaped msg = true := by
      cases h : well_shaped msg <;> simp_all
    obtain ⟨t, id, method, params, rfl, ht⟩ := (well_shaped_iff _).1 hws
    rcases ht with rfl | rfl
    · exact ⟨id, method, params, rfl⟩
    · exfalso
      rw [handle_msg_notification4] at hstore
      cases hl : lookup method <;> simp [hl] at hstore
  · rintro ⟨id, method, params, rfl⟩
    rw [handle_msg_request, shape_check_fails_eq]
    cases lookup method <;> simp [well_shaped]

/-- C3 (what the code does): for a well-formed Request the handler found for
the bytes of element 2 is called with `(params, *res)` only and its result is
returned; the msgid is not among the arguments, so two Requests that differ
only in the msgid have the same outcome. -/
theorem request_handler_call_omits_msgid (overlay : msgpack_object → Nat)
    (lookup : List Nat → Option handle_message_fn_t) (fn : handle_message_fn_t)
    (id id1 : Nat) (method : List Nat) (params : List msgpack_object) (res : Option Nat) :
    (msgpack_rpc_handle_msg overlay (fun m => if m = method then some fn else lookup m)
        (.array [.positive_integer 0, .positive_integer id, .raw method, .array params]) res =
      ⟨.ok (fn params res), res,
        [.lookup_method_handler method, .call_handler params res]⟩) ∧
    msgpack_rpc_handle_msg overlay lookup
        (.array [.positive_integer 0, .positive_integer id, .raw method, .array params]) res =
      msgpack_rpc_handle_msg overlay lookup
        (.array [.positive_integer 0, .positive_integer id1, .raw method, .array params]) res := by
  constructor
  · rw [handle_msg_request]; simp
  · rw [handle_msg_request, handle_msg_request]

/-- C4 (what the code does): a 3-element array `[2, method, params]` fails
the check of the basic structure, which demands 4 elements; `*res` is set to
`NULL`, no handler is looked up or called and `false` is returned. -/
theorem three_element_notification_rejected (overlay : msgpack_object → Nat)
    (lookup : List Nat → Option handle_message_fn_t) (method : List Nat)
    (params : List msgpack_object) (res : Option Nat) :
    shape_check_fails overlay
        (.array [.positive_integer 2, .raw method, .array params]) = .ok true ∧
    msgpack_rpc_handle_msg overlay lookup
        (.array [.positive_integer 2, .raw method, .array params]) res =
      ⟨.ok false, none, [.store_res_null]⟩ := by
  constructor
  · rw [shape_check_fails_eq]; rfl
  · rw [handle_msg_malformed overlay lookup
      (.array [.positive_integer 2, .raw method, .array params]) res rfl, is_notification_cons]
    simp [via_u64, kNotificationRPCMessageType]

/-- The error path when the notification test of the code is negative: one
call, to `msgpack_rpc_build_error_res`, with the recovered msgid, the
malformed-message descriptor (code 1, name "NeovimRPCMalformedMessageError")
and `*res`; no handler is looked up or called, `*res` is unchanged and `false`
is returned. -/
theorem malformed_request_builds_one_error (overlay : msgpack_object → Nat)
    (lookup : List Nat → Option handle_message_fn_t) (msg : msgpack_object)
    (res : Option Nat)
    (hshape : shape_check_fails overlay msg = .ok true)
    (hntf : is_notification overlay msg = .ok false) :
    msgpack_rpc_handle_msg overlay lookup msg res =
      ⟨.ok false, res,
        [.build_error_res (recovered_msgid msg) msgpack_rpc_malformed_msg_error res]⟩ ∧
    msgpack_rpc_malformed_msg_error.code.toNat = 1 ∧
    msgpack_rpc_malformed_msg_error.name = "NeovimRPCMalformedMessageError" := by
  refine ⟨?_, rfl, rfl⟩
  rw [shape_check_fails_eq] at hshape
  have hws : well_shaped msg = false := by
    cases h : well_shaped msg <;> simp_all
  rw [handle_msg_malformed overlay lookup msg res hws, hntf, recover_message_id_eq]

/-- C5 (what the code does): an array that starts with the double whose bits
are 2 fails the check of the basic structure and its element 0 is not the
positive integer 2, yet no error Response is built: the run makes no call of
`msgpack_rpc_build_error_res`, only sets `*res` to `NULL`, and returns
`false`, whatever follows in the array. -/
theorem malformed_double_head_builds_no_error (overlay : msgpack_object → Nat)
    (lookup : List Nat → Option handle_message_fn_t) (rest : List msgpack_object)
    (res : Option Nat) :
    shape_check_fails overlay (.array (.double 2 :: rest)) = .ok true ∧
    (msgpack_object.double 2).type = .DOUBLE ∧
    (msgpack_rpc_handle_msg overlay lookup (.array (.double 2 :: rest)) res).ret = .ok false ∧
    (msgpack_rpc_handle_msg overlay lookup (.array (.double 2 :: rest)) res).trace =
      [.store_res_null] ∧
    (∀ message_id err r, Effect.build_error_res message_id err r ∉
      (msgpack_rpc_handle_msg overlay lookup (.array (.double 2 :: rest)) res).trace) := by
  have hrun : msgpack_rpc_handle_msg overlay lookup (.array (.double 2 :: rest)) res =
      ⟨.ok false, none, [.store_res_null]⟩ := by
    rw [handle_msg_malformed overlay lookup (.array (.double 2 :: rest)) res rfl,
      is_notification_cons]
    rfl
  refine ⟨?_, rfl, ?_, ?_, ?_⟩
  · rw [shape_check_fails_eq]; rfl
  · rw [hrun]
  · rw [hrun]
  · rw [hrun]; simp

/-- C6: the msgid recovered on the error path (`server.c:39-50`) is the one the
specification describes, for every value: `v mod 2 ^ 32` for a positive element
1, the low 32 bits of the two's complement of a negative element 1, which is
`v mod 2 ^ 32` taken in the integers (`-1` gives `4294967295`), and `0`
otherwise. -/
theorem recovered_msgid_refines (overlay : msgpack_object → Nat)
    (lookup : List Nat → Option handle_message_fn_t) (msg e0 : msgpack_object) (u : Nat)
    (v : Int) (rest : List msgpack_object) (res : Option Nat) :
    recover_message_id overlay msg = .ok (recovered_msgid msg) ∧
    recover_message_id overlay (.array (e0 :: .positive_integer u :: rest)) =
      .ok (u % 2 ^ 32) ∧
    recover_message_id overlay (.array (e0 :: .negative_integer v :: rest)) =
      .ok (v % 2 ^ 32).toNat ∧
    recovered_msgid (.array (e0 :: .negative_integer (-1) :: rest)) = 4294967295 ∧
    recovered_msgid (.array [e0]) = 0 ∧
    msgpack_rpc_handle_msg overlay lookup
        (.array [.positive_integer 0, .negative_integer (-1), .raw [109], .array []]) res =
      ⟨.ok false, res,
        [.build_error_res 4294967295 msgpack_rpc_malformed_msg_error res]⟩ := by
  refine ⟨recover_message_id_eq overlay msg, recover_message_id_eq overlay _, ?_, rfl, rfl, ?_⟩
  · rw [recover_message_id_eq]
    exact congrArg Except.ok (low32_of_int v)
  rw [handle_msg_malformed overlay lookup
    (.array [.positive_integer 0, .negative_integer (-1), .raw [109], .array []]) res rfl,
    is_notification_cons, recover_message_id_eq]
  simp [via_u64, kNotificationRPCMessageType, recovered_msgid]

/-- C7 (what the code does): `msgpack_rpc_handle_msg` never calls
`msgpack_rpc_build_error_res` for a well-formed Request, whatever the lookup
returns; for `[0, 42, "no_such_method", []]` and a registry without that method
the lookup result `NULL` is called, so nothing is written and nothing
returned. -/
theorem unregistered_method_gets_no_response (overlay : msgpack_object → Nat)
    (lookup : List Nat → Option handle_message_fn_t) (id : Nat) (method : List Nat)
    (params : List msgpack_object) (res : Option Nat) :
    (∀ message_id err r, Effect.build_error_res message_id err r ∉
      (msgpack_rpc_handle_msg overlay lookup
        (.array [.positive_integer 0, .positive_integer id, .raw method, .array params])
        res).trace) ∧
    msgpack_rpc_handle_msg overlay (fun _ => none)
        (.array [.positive_integer 0, .positive_integer 42,
          .raw (ascii_bytes "no_such_method"), .array []]) res =
      ⟨.error .null_call, res,
        [.lookup_method_handler (ascii_bytes "no_such_method")]⟩ := by
  constructor
  · rw [handle_msg_request]
    cases lookup method <;> simp
  · rw [handle_msg_request]

/-! ## Lemmas on the checking code of handlers -/

theorem check_and_unpack_step (overlay : msgpack_object → Nat) (s : HandlerScope) (idx : Nat)
    (t : idl_type) (ty : msgpack_object_type) (q : msgpack_object)
    (rest : Unpacked → HandlerOutcome) (hq : s.params[idx]? = some q) :
    MSGPACK_RPC_CHECK_AND_UNPACK_PARAM overlay s idx t ty rest =
      if q.type ≠ ty ∨ q.type ≠ t.unpack_type_id then
        ⟨.ok false, error_effects s (MSGPACK_RPC_EXPECTED_TYPE_ERROR t.name)⟩
      else rest (unpacked_local overlay t q) := by
  cases t
  · by_cases h1 : q.type = ty <;> by_cases h2 : q.type = .POSITIVE_INTEGER <;>
      simp [MSGPACK_RPC_CHECK_AND_UNPACK_PARAM, MSGPACK_RPC_CHECK_PARAM_TYPE,
        MSGPACK_RPC_UNPACK_PARAM_uint, ptr_at, hq, h1, h2, error_effects, idl_type.name,
        idl_type.unpack_type_id, unpacked_local]
  · cases q <;> cases ty <;>
      simp [MSGPACK_RPC_CHECK_AND_UNPACK_PARAM, MSGPACK_RPC_CHECK_PARAM_TYPE,
        MSGPACK_RPC_UNPACK_PARAM_raw, ptr_at, hq, error_effects, idl_type.name,
        idl_type.unpack_type_id, unpacked_local, msgpack_object.type, via_raw]

theorem check_and_unpack_first_mismatch (overlay : msgpack_object → Nat) (s : HandlerScope)
    (t : idl_type) (ty : msgpack_object_type) (p : msgpack_object) (hmis : p.type ≠ ty) :
    ∀ (k : Nat) (decl : List (idl_type × msgpack_object_type)) (idx : Nat)
      (body : List Unpacked → HandlerOutcome),
      (∀ j, j < k → ∃ q tq, s.params[idx + j]? = some q ∧ decl[j]? = some (tq, q.type) ∧
        tq.unpack_type_id = q.type) →
      decl[k]? = some (t, ty) → s.params[idx + k]? = some p →
      check_and_unpack_params overlay s idx decl body =
        ⟨.ok false, error_effects s (MSGPACK_RPC_EXPECTED_TYPE_ERROR t.name)⟩ := by
  intro k
  induction k with
  | zero =>
    intro decl idx body _ hk hp
    cases decl with
    | nil => simp at hk
    | cons d ds =>
      simp only [List.getElem?_cons_zero, Option.some.injEq] at hk
      subst hk
      rw [check_and_unpack_params, check_and_unpack_step overlay s idx t ty p _ hp]
      simp [hmis]
  | succ k ih =>
    intro decl idx body hbefore hk hp
    cases decl with
    | nil => simp at hk
    | cons d ds =>
      obtain ⟨t0, ty0⟩ := d
      obtain ⟨q, tq, hq, hd, hu⟩ := hbefore 0 (Nat.succ_pos k)
      simp only [List.getElem?_cons_zero, Option.some.injEq, Prod.mk.injEq] at hd
      obtain ⟨rfl, rfl⟩ := hd
      rw [check_and_unpack_params, check_and_unpack_step overlay s idx t0 q.type q _ hq]
      simp only [ne_eq, not_true_eq_false, hu, or_self, if_false]
      apply ih ds (idx + 1)
      · intro j hj
        obtain ⟨q1, tq1, hq1, hd1, hu1⟩ := hbefore (j + 1) (Nat.succ_lt_succ hj)
        refine ⟨q1, tq1, ?_, ?_, hu1⟩
        · rw [← hq1]; congr 1; omega
        · simpa using hd1
      · simpa using hk
      · rw [← hp]; congr 1; omega

/-- C9: when the size of `params` differs from `len`,
`MSGPACK_RPC_CHECK_PARAMS_LEN(len)` returns `false` from the handler without
going on to what follows it; with a sink (Request) exactly one error Response
is built, for `message_id`, with the wrong-number-of-params descriptor (code
3) and `res`; without a sink (Notification) nothing is built.  The identifier
`req` that the check tests is declared in no file of the source; it is taken
to be set exactly for a Request, that is, exactly when the sink is present. -/
theorem check_params_len_mismatch (message : String) (s : HandlerScope) (len : Nat)
    (rest : HandlerOutcome) (hreq : s.req = s.res.isSome) (hlen : s.params.length ≠ len) :
    MSGPACK_RPC_CHECK_PARAMS_LEN message s len rest =
      ⟨.ok false,
        if s.res.isSome then
          [.build_error_res s.message_id (wrong_number_of_params_error message) s.res]
        else []⟩ ∧
    (wrong_number_of_params_error message).code.toNat = 3 := by
  refine ⟨?_, rfl⟩
  simp [MSGPACK_RPC_CHECK_PARAMS_LEN, hlen, hreq]

/-- Witness of C9: `[1, 2, 3]` against a length of 1, as a Notification (no
sink, nothing built) and as a Request (sink at address 1, one error
Response). -/
theorem check_params_len_mismatch_witness :
    [msgpack_object.positive_integer 1, .positive_integer 2, .positive_integer 3].length ≠ 1 ∧
    (MSGPACK_RPC_CHECK_PARAMS_LEN ""
        ⟨0, [.positive_integer 1, .positive_integer 2, .positive_integer 3], none, false⟩ 1
        ⟨.ok true, []⟩ =
      ⟨.ok false,
        if (none : Option Nat).isSome then
          [.build_error_res 0 (wrong_number_of_params_error "") none]
        else []⟩ ∧
    (wrong_number_of_params_error "").code.toNat = 3) ∧
    (MSGPACK_RPC_CHECK_PARAMS_LEN ""
        ⟨9, [.positive_integer 1, .positive_integer 2, .positive_integer 3], some 1, true⟩ 1
        ⟨.ok true, []⟩ =
      ⟨.ok false,
        if (some 1 : Option Nat).isSome then
          [.build_error_res 9 (wrong_number_of_params_error "") (some 1)]
        else []⟩ ∧
    (wrong_number_of_params_error "").code.toNat = 3) :=
  ⟨by decide,
    check_params_len_mismatch ""
      ⟨0, [.positive_integer 1, .positive_integer 2, .positive_integer 3], none, false⟩ 1
      ⟨.ok true, []⟩ rfl (by decide),
    check_params_len_mismatch ""
      ⟨9, [.positive_integer 1, .positive_integer 2, .positive_integer 3], some 1, true⟩ 1
      ⟨.ok true, []⟩ rfl (by decide)⟩

/-- C10 (counterexample): `uint` declared with the tag `NEGATIVE_INTEGER` at
position 0 and `raw` with `RAW` at position 1, against `[-1, nil]` with a
sink.  Position 0 has the declared tag and position 1 is the lowest that has
not, yet the checks stop at position 0: the unpacking statement for `uint`
demands `POSITIVE_INTEGER`, and the error Response carries the descriptor of
`uint`, which is not the descriptor of `raw`. -/
theorem unpack_check_rejects_declared_tag :
    (msgpack_object.negative_integer (-1)).type = .NEGATIVE_INTEGER ∧
    msgpack_object.nil.type ≠ .RAW ∧
    check_and_unpack_params (fun _ => 0)
        ⟨7, [.negative_integer (-1), .nil], some 1, true⟩ 0
        [(.uint, .NEGATIVE_INTEGER), (.raw, .RAW)] (fun _ => ⟨.ok true, []⟩) =
      ⟨.ok false, [.build_error_res 7 (MSGPACK_RPC_EXPECTED_TYPE_ERROR "uint") (some 1)]⟩ ∧
    MSGPACK_RPC_EXPECTED_TYPE_ERROR "uint" ≠ MSGPACK_RPC_EXPECTED_TYPE_ERROR "raw" :=
  ⟨rfl, by decide, rfl, by decide⟩

/-- C10 (amended): for checks `MSGPACK_RPC_CHECK_AND_UNPACK_PARAM` of the
positions `0 .. n-1` in order, each with the tag that the unpacking statement
of its IDL type demands, and `params` of length `n` in which `k` is the lowest
position whose tag differs from the declared one: the handler returns `false`;
the outcome is the same for every list of length `n` that agrees up to
position `k` and for every body, so no later position is examined; with a
sink (Request) exactly one error Response is built, for `message_id`, with the
wrong-param-type descriptor (code 4) declared for the IDL type of position
`k`; without a sink (Notification) nothing is built.  The identifier `req`
that the check tests is taken as in C9. -/
theorem first_type_mismatch_stops_checks (overlay : msgpack_object → Nat) (s : HandlerScope)
    (decl : List (idl_type × msgpack_object_type)) (body body1 : List Unpacked → HandlerOutcome)
    (k : Nat) (t : idl_type) (ty : msgpack_object_type) (p : msgpack_object)
    (params1 : List msgpack_object)
    (hreq : s.req = s.res.isSome)
    (hdecl : ∀ d ∈ decl, d.2 = d.1.unpack_type_id)
    (hlen : s.params.length = decl.length) (hlen1 : params1.length = decl.length)
    (hbefore : ∀ j, j < k → ∃ q tq, s.params[j]? = some q ∧ decl[j]? = some (tq, q.type))
    (hk : decl[k]? = some (t, ty)) (hp : s.params[k]? = some p) (hmis : p.type ≠ ty)
    (hagree : params1.take (k + 1) = s.params.take (k + 1)) :
    check_and_unpack_params overlay s 0 decl body =
      ⟨.ok false,
        if s.res.isSome then
          [.build_error_res s.message_id (MSGPACK_RPC_EXPECTED_TYPE_ERROR t.name) s.res]
        else []⟩ ∧
    check_and_unpack_params overlay { s with params := params1 } 0 decl body1 =
      ⟨.ok false,
        if s.res.isSome then
          [.build_error_res s.message_id (MSGPACK_RPC_EXPECTED_TYPE_ERROR t.name) s.res]
        else []⟩ ∧
    (MSGPACK_RPC_EXPECTED_TYPE_ERROR t.name).code.toNat = 4 := by
  have hsame : ∀ j, j < k + 1 → params1[j]? = s.params[j]? := by
    intro j hj
    rw [← List.getElem?_take_of_lt hj, hagree, List.getElem?_take_of_lt hj]
  have hbefore1 : ∀ j, j < k → ∃ q tq, s.params[0 + j]? = some q ∧
      decl[j]? = some (tq, q.type) ∧ tq.unpack_type_id = q.type := by
    intro j hj
    obtain ⟨q, tq, hq, hd⟩ := hbefore j hj
    exact ⟨q, tq, by simpa using hq, hd, (hdecl _ (List.getElem?_mem hd)).symm⟩
  have heff : ∀ s1 : HandlerScope, s1.req = s.req → s1.message_id = s.message_id →
      s1.res = s.res →
      error_effects s1 (MSGPACK_RPC_EXPECTED_TYPE_ERROR t.name) =
        if s.res.isSome then
          [.build_error_res s.message_id (MSGPACK_RPC_EXPECTED_TYPE_ERROR t.name) s.res]
        else [] := by
    intro s1 h1 h2 h3
    simp [error_effects, h1, h2, h3, hreq]
  refine ⟨?_, ?_, rfl⟩
  · rw [check_and_unpack_first_mismatch overlay s t ty p hmis k decl 0 body hbefore1 hk
      (by simpa using hp), heff s rfl rfl rfl]
  · rw [check_and_unpack_first_mismatch overlay { s with params := params1 } t ty p hmis k
      decl 0 body1
      (fun j hj => by
        obtain ⟨q, tq, hq, hd, hu⟩ := hbefore1 j hj
        refine ⟨q, tq, ?_, hd, hu⟩
        have := hsame j (Nat.lt_succ_of_lt hj)
        simp only [Nat.zero_add] at hq ⊢
        rw [← hq]; exact this)
      hk (by simpa [hsame k (Nat.lt_succ_self k)] using hp),
      heff { s with params := params1 } rfl rfl rfl]

/-- Witness of C10 (amended): `[1, nil, nil]` against `(uint, raw, uint)` as a
Request; the checks stop at position 1, and `[1, nil, 9]` has the same
outcome. -/
theorem first_type_mismatch_stops_checks_witness :
    check_and_unpack_params (fun _ => 0)
        ⟨7, [.positive_integer 1, .nil, .nil], some 1, true⟩ 0
        [(.uint, .POSITIVE_INTEGER), (.raw, .RAW), (.uint, .POSITIVE_INTEGER)]
        (fun _ => ⟨.ok true, []⟩) =
      ⟨.ok false,
        if (some 1 : Option Nat).isSome then
          [.build_error_res 7 (MSGPACK_RPC_EXPECTED_TYPE_ERROR idl_type.raw.name) (some 1)]
        else []⟩ ∧
    check_and_unpack_params (fun _ => 0)
        { ({ message_id := 7, params := [.positive_integer 1, .nil, .nil], res := some 1,
              req := true } : HandlerScope) with
          params := [.positive_integer 1, .nil, .positive_integer 9] } 0
        [(.uint, .POSITIVE_INTEGER), (.raw, .RAW), (.uint, .POSITIVE_INTEGER)]
        (fun _ => ⟨.ok false, [.store_res_null]⟩) =
      ⟨.ok false,
        if (some 1 : Option Nat).isSome then
          [.build_error_res 7 (MSGPACK_RPC_EXPECTED_TYPE_ERROR idl_type.raw.name) (some 1)]
        else []⟩ ∧
    (MSGPACK_RPC_EXPECTED_TYPE_ERROR idl_type.raw.name).code.toNat = 4 :=
  first_type_mismatch_stops_checks (fun _ => 0)
    ⟨7, [.positive_integer 1, .nil, .nil], some 1, true⟩
    [(.uint, .POSITIVE_INTEGER), (.raw, .RAW), (.uint, .POSITIVE_INTEGER)]
    (fun _ => ⟨.ok true, []⟩) (fun _ => ⟨.ok false, [.store_res_null]⟩)
    1 .raw .RAW .nil [.positive_integer 1, .nil, .positive_integer 9]
    rfl (by decide) rfl rfl
    (fun j hj => by
      obtain rfl : j = 0 := by omega
      exact ⟨.positive_integer 1, .uint, rfl, rfl⟩)
    rfl rfl (by decide) rfl

/-! ## Success Responses -/

theorem unpack_response (d1 d2 : Nat) (x : PackItem) (r : msgpack_object)
    (hx : unpack_many 1 1 [x] = some ([r], [])) :
    msgpack_unpack [.array 4, .uint32 d1, .uint32 d2, .nil, x] =
      some (.array [.positive_integer d1, .positive_integer d2, .nil, r]) := by
  rcases x with n | d | _ | ⟨b, l⟩
  · cases n <;> simp_all [msgpack_unpack, unpack_many]
  all_goals simp_all [msgpack_unpack, unpack_many]

/-- C11: with a sink, `MSGPACK_RPC_SUCCESS_RES_RESULT(uint, v, res)` makes
exactly the calls that append array-header(4), uint32 1, uint32 `message_id`,
nil, uint32 `v` and returns `true`; the items decode to the Response
`[1, message_id, nil, v]`; without a sink it makes no call and returns
`true`. -/
theorem success_response_uint (s : HandlerScope) (v a : Nat)
    (hid : s.message_id < 2 ^ 32) (hv : v < 2 ^ 32) :
    MSGPACK_RPC_SUCCESS_RES_RESULT s (.uint v) (some a) =
      ⟨.ok true,
        [.pack (some a) (.array 4), .pack (some a) (.uint32 1),
          .pack (some a) (.uint32 s.message_id), .pack (some a) .nil,
          .pack (some a) (.uint32 v)]⟩ ∧
    msgpack_unpack (packed a (MSGPACK_RPC_SUCCESS_RES_RESULT s (.uint v) (some a)).trace) =
      some (.array [.positive_integer 1, .positive_integer s.message_id, .nil,
        .positive_integer v]) ∧
    MSGPACK_RPC_SUCCESS_RES_RESULT s (.uint v) none = ⟨.ok true, []⟩ := by
  have h1 : MSGPACK_RPC_SUCCESS_RES_RESULT s (.uint v) (some a) =
      ⟨.ok true,
        [.pack (some a) (.array 4), .pack (some a) (.uint32 1),
          .pack (some a) (.uint32 s.message_id), .pack (some a) .nil,
          .pack (some a) (.uint32 v)]⟩ := by
    simp [MSGPACK_RPC_SUCCESS_RES_RESULT, MSGPACK_RPC_INIT_SUCCESS_RES, MSGPACK_RPC_PACK_uint,
      msgpack_pack_array, msgpack_pack_uint32, msgpack_pack_nil, kResponseRPCMessageType,
      Nat.mod_eq_of_lt hid, Nat.mod_eq_of_lt hv]
    exact ⟨by omega, by omega⟩
  refine ⟨h1, ?_, ?_⟩
  · rw [h1]
    simp only [packed, List.filterMap_cons, List.filterMap_nil, if_true]
    exact unpack_response 1 s.message_id (.uint32 v) (.positive_integer v) rfl
  · simp [MSGPACK_RPC_SUCCESS_RES_RESULT]

/-- Witness of C11: msgid 42 and result 9 on the packer at address 1. -/
theorem success_response_uint_witness :
    (42 : Nat) < 2 ^ 32 ∧ (9 : Nat) < 2 ^ 32 ∧
    (MSGPACK_RPC_SUCCESS_RES_RESULT ⟨42, [], some 1, true⟩ (.uint 9) (some 1) =
      ⟨.ok true,
        [.pack (some 1) (.array 4), .pack (some 1) (.uint32 1),
          .pack (some 1) (.uint32 42), .pack (some 1) .nil,
          .pack (some 1) (.uint32 9)]⟩ ∧
    msgpack_unpack
        (packed 1 (MSGPACK_RPC_SUCCESS_RES_RESULT ⟨42, [], some 1, true⟩ (.uint 9)
          (some 1)).trace) =
      some (.array [.positive_integer 1, .positive_integer 42, .nil, .positive_integer 9]) ∧
    MSGPACK_RPC_SUCCESS_RES_RESULT ⟨42, [], some 1, true⟩ (.uint 9) none = ⟨.ok true, []⟩) :=
  ⟨by decide, by decide,
    success_response_uint ⟨42, [], some 1, true⟩ 9 1 (by decide) (by decide)⟩

/-- C12 (counterexample): the Response written by
`MSGPACK_RPC_SUCCESS_RES_RESULT_VOID` for msgid 7 decodes to `[1, 7, nil, nil]`:
the error field and the result field are both nil. -/
theorem void_response_has_two_nils :
    msgpack_unpack
        (packed 1 (MSGPACK_RPC_SUCCESS_RES_RESULT_VOID ⟨7, [], some 1, true⟩ (some 1)).trace) =
      some (.array [.positive_integer 1, .positive_integer 7, .nil, .nil]) :=
  rfl

/-- C12 (amended): every Response written by the success-response statements
decodes to a 4-element array with type 1, the msgid and a nil error field;
its result field is not nil for `MSGPACK_RPC_SUCCESS_RES_RESULT` with a `uint`
or `raw` result and is nil for `MSGPACK_RPC_SUCCESS_RES_RESULT_VOID`. -/
theorem success_response_fields (s : HandlerScope) (api_result : ApiResult) (a : Nat) :
    (∃ r : msgpack_object,
      msgpack_unpack (packed a (MSGPACK_RPC_SUCCESS_RES_RESULT s api_result (some a)).trace) =
        some (.array [.positive_integer 1, .positive_integer (s.message_id % 2 ^ 32), .nil, r]) ∧
      r.type ≠ .NIL) ∧
    msgpack_unpack (packed a (MSGPACK_RPC_SUCCESS_RES_RESULT_VOID s (some a)).trace) =
      some (.array [.positive_integer 1, .positive_integer (s.message_id % 2 ^ 32), .nil,
        .nil]) := by
  constructor
  · cases api_result with
    | uint v =>
      refine ⟨.positive_integer (v % 2 ^ 32), ?_, by simp [msgpack_object.type]⟩
      simp only [MSGPACK_RPC_SUCCESS_RES_RESULT, MSGPACK_RPC_INIT_SUCCESS_RES,
        MSGPACK_RPC_PACK_uint, msgpack_pack_array, msgpack_pack_uint32, msgpack_pack_nil,
        kResponseRPCMessageType, Option.isSome_some, if_true, List.cons_append,
        List.nil_append, packed, List.filterMap_cons, List.filterMap_nil]
      exact unpack_response _ _ (.uint32 (v % 2 ^ 32)) _ rfl
    | raw v =>
      refine ⟨.raw (v.take (strlen v)), ?_, by simp [msgpack_object.type]⟩
      simp only [MSGPACK_RPC_SUCCESS_RES_RESULT, MSGPACK_RPC_INIT_SUCCESS_RES,
        MSGPACK_RPC_PACK_raw, msgpack_pack_array, msgpack_pack_uint32, msgpack_pack_nil,
        msgpack_pack_raw, kResponseRPCMessageType, Option.isSome_some, if_true,
        List.cons_append, List.nil_append, packed, List.filterMap_cons, List.filterMap_nil]
      exact unpack_response _ _ (.raw v (strlen v)) _ rfl
  · simp only [MSGPACK_RPC_SUCCESS_RES_RESULT_VOID, MSGPACK_RPC_INIT_SUCCESS_RES,
      msgpack_pack_array, msgpack_pack_uint32, msgpack_pack_nil,
      kResponseRPCMessageType, Option.isSome_some, if_true, List.cons_append,
      List.nil_append, packed, List.filterMap_cons, List.filterMap_nil]
    exact unpack_response _ _ .nil _ rfl

/-! ## Frame, guards and descriptors -/

theorem is_notification_not_cons (overlay : msgpack_object → Nat) (msg : msgpack_object)
    (h : ∀ e0 rest, msg ≠ .array (e0 :: rest)) :
    is_notification overlay msg = .ok false := by
  cases msg with
  | array a =>
    cases a with
    | nil => simp [is_notification, msgpack_object.type, via_array, bind, Except.bind, pure,
        Except.pure]
    | cons e0 rest => exact absurd rfl (h e0 rest)
  | _ => simp [is_notification, msgpack_object.type, pure, Except.pure]

theorem is_notification_total (overlay : msgpack_object → Nat) (msg : msgpack_object) :
    ∃ b, is_notification overlay msg = .ok b := by
  by_cases h : ∃ e0 rest, msg = .array (e0 :: rest)
  · obtain ⟨e0, rest, rfl⟩ := h
    exact ⟨_, is_notification_cons overlay e0 rest⟩
  · exact ⟨false, is_notification_not_cons overlay msg (fun e0 rest he => h ⟨e0, rest, he⟩)⟩

theorem handle_msg_res (overlay : msgpack_object → Nat)
    (lookup : List Nat → Option handle_message_fn_t) (msg : msgpack_object)
    (res : Option Nat) :
    (msgpack_rpc_handle_msg overlay lookup msg res).res =
      match is_notification overlay msg with
      | .ok true => none
      | _ => res := by
  cases hws : well_shaped msg with
  | true =>
    obtain ⟨t, id, method, params, rfl, ht⟩ := (well_shaped_iff _).1 hws
    rw [is_notification_cons]
    rcases ht with rfl | rfl
    · rw [handle_msg_request]
      cases lookup method <;> simp [via_u64, kNotificationRPCMessageType]
    · rw [handle_msg_notification4]
      cases lookup method <;> simp [via_u64, kNotificationRPCMessageType]
  | false =>
    rw [handle_msg_malformed overlay lookup msg res hws, recover_message_id_eq]
    obtain ⟨b, hb⟩ := is_notification_total overlay msg
    rw [hb]
    cases b <;> rfl

/-- The value of `*res` after `msgpack_rpc_handle_msg`: `NULL` when the
notification test of the code is positive and the pointer the caller passed
otherwise: `NULL` for an array that starts with the positive integer 2;
unchanged for an array that starts with another positive integer, for the
empty array and for every value that is not an array. -/
theorem res_is_null_or_unchanged (overlay : msgpack_object → Nat)
    (lookup : List Nat → Option handle_message_fn_t) (msg : msgpack_object)
    (res : Option Nat) (t : Nat) (rest : List msgpack_object) (b : Bool) (u : Nat) (i : Int)
    (bytes : List Nat) (kv : List (msgpack_object × msgpack_object)) :
    (msgpack_rpc_handle_msg overlay lookup msg res).res =
      (match is_notification overlay msg with
      | .ok true => none
      | _ => res) ∧
    (msgpack_rpc_handle_msg overlay lookup (.array (.positive_integer t :: rest)) res).res =
      (if t = 2 then none else res) ∧
    (msgpack_rpc_handle_msg overlay lookup (.array []) res).res = res ∧
    (msgpack_rpc_handle_msg overlay lookup .nil res).res = res ∧
    (msgpack_rpc_handle_msg overlay lookup (.boolean b) res).res = res ∧
    (msgpack_rpc_handle_msg overlay lookup (.positive_integer u) res).res = res ∧
    (msgpack_rpc_handle_msg overlay lookup (.negative_integer i) res).res = res ∧
    (msgpack_rpc_handle_msg overlay lookup (.double u) res).res = res ∧
    (msgpack_rpc_handle_msg overlay lookup (.raw bytes) res).res = res ∧
    (msgpack_rpc_handle_msg overlay lookup (.map kv) res).res = res := by
  refine ⟨handle_msg_res overlay lookup msg res, ?_, ?_, ?_, ?_, ?_, ?_, ?_, ?_, ?_⟩
  · rw [handle_msg_res, is_notification_cons]
    by_cases ht : t = 2 <;> simp [via_u64, kNotificationRPCMessageType, ht]
  all_goals
    rw [handle_msg_res, is_notification_not_cons overlay _ (by intro e0 rest h; cases h)]

/-- C13 (what the code does): an array that starts with the double whose bits
are 2 is a malformed message whose element 0 is not the positive integer 2,
yet `*res`, passed as the packer at address `a`, is `NULL` afterwards. -/
theorem res_nulled_for_double_head (overlay : msgpack_object → Nat)
    (lookup : List Nat → Option handle_message_fn_t) (rest : List msgpack_object)
    (a : Nat) :
    shape_check_fails overlay (.array (.double 2 :: rest)) = .ok true ∧
    (msgpack_object.double 2).type = .DOUBLE ∧
    (msgpack_rpc_handle_msg overlay lookup (.array (.double 2 :: rest)) (some a)).res =
      none := by
  refine ⟨?_, rfl, ?_⟩
  · rw [shape_check_fails_eq]; rfl
  · rw [handle_msg_res, is_notification_cons]
    rfl

/-- C14 (what the code does): a 4-element array `[2, n, method, params]` passes
the check of the basic structure; the handler for `method` is looked up and
called with `params` and a `NULL` sink, and its result is returned. -/
theorem four_element_notification_dispatched (overlay : msgpack_object → Nat)
    (lookup : List Nat → Option handle_message_fn_t) (fn : handle_message_fn_t)
    (n : Nat) (method : List Nat) (params : List msgpack_object) (res : Option Nat) :
    shape_check_fails overlay
        (.array [.positive_integer 2, .positive_integer n, .raw method, .array params]) =
      .ok false ∧
    msgpack_rpc_handle_msg overlay (fun m => if m = method then some fn else lookup m)
        (.array [.positive_integer 2, .positive_integer n, .raw method, .array params]) res =
      ⟨.ok (fn params none), none,
        [.lookup_method_handler method, .store_res_null, .call_handler params none]⟩ := by
  constructor
  · rw [shape_check_fails_eq]; rfl
  · rw [handle_msg_notification4]; simp

/-- C15 (what the code does): the notification test of the error path reads
the 64-bit word of element 0 without a test of its tag.  An array that starts
with the double whose bits are 2 is treated as a notification, whatever the
other elements are: `*res` is set to `NULL` and no error Response is built; so
is an array that starts with nil when the word left in the union is 2. -/
theorem notification_test_reads_untagged_word (overlay : msgpack_object → Nat)
    (lookup : List Nat → Option handle_message_fn_t) (rest : List msgpack_object)
    (res : Option Nat) :
    is_notification overlay (.array (.double 2 :: rest)) = .ok true ∧
    msgpack_rpc_handle_msg overlay lookup (.array (.double 2 :: rest)) res =
      ⟨.ok false, none, [.store_res_null]⟩ ∧
    msgpack_rpc_handle_msg (fun _ => 2) lookup (.array (.nil :: rest)) res =
      ⟨.ok false, none, [.store_res_null]⟩ := by
  refine ⟨?_, ?_, ?_⟩
  · rw [is_notification_cons]; rfl
  · rw [handle_msg_malformed overlay lookup (.array (.double 2 :: rest)) res rfl,
      is_notification_cons]
    rfl
  · rw [handle_msg_malformed (fun _ => 2) lookup (.array (.nil :: rest)) res rfl,
      is_notification_cons]
    rfl

/-- C16: no run of `msgpack_rpc_handle_msg` reads `via.array` of a value that is
not an array or an element past the size of an array: the check of the
basic structure, the notification test and the recovery of the msgid give a
result for every value, the four fields are read whenever the check passes,
and the run returns a value unless it calls a `NULL` handler. -/
theorem array_reads_in_range (overlay : msgpack_object → Nat)
    (lookup : List Nat → Option handle_message_fn_t) (msg : msgpack_object)
    (res : Option Nat) :
    (∃ b, shape_check_fails overlay msg = .ok b) ∧
    (∃ b, is_notification overlay msg = .ok b) ∧
    (∃ n, recover_message_id overlay msg = .ok n) ∧
    (shape_check_fails overlay msg = .ok true ∨ ∃ f, request_fields overlay msg = .ok f) ∧
    (msgpack_rpc_handle_msg overlay lookup msg res).ret ≠ .error .out_of_range ∧
    (msgpack_rpc_handle_msg overlay lookup msg res).ret ≠ .error .wrong_member ∧
    ((msgpack_rpc_handle_msg overlay lookup msg res).ret = .error .null_call ∨
      ∃ b, (msgpack_rpc_handle_msg overlay lookup msg res).ret = .ok b) := by
  have hret : (msgpack_rpc_handle_msg overlay lookup msg res).ret = .error .null_call ∨
      ∃ b, (msgpack_rpc_handle_msg overlay lookup msg res).ret = .ok b := by
    cases hws : well_shaped msg with
    | true =>
      obtain ⟨t, id, method, params, rfl, ht⟩ := (well_shaped_iff _).1 hws
      rcases ht with rfl | rfl
      · rw [handle_msg_request]
        cases lookup method <;> simp
      · rw [handle_msg_notification4]
        cases lookup method <;> simp
    | false =>
      rw [handle_msg_malformed overlay lookup msg res hws, recover_message_id_eq]
      obtain ⟨b, hb⟩ := is_notification_total overlay msg
      rw [hb]
      cases b <;> simp
  refine ⟨⟨_, shape_check_fails_eq overlay msg⟩, is_notification_total overlay msg,
    ⟨_, recover_message_id_eq overlay msg⟩, ?_, ?_, ?_, hret⟩
  · cases hws : well_shaped msg with
    | true =>
      obtain ⟨t, id, method, params, rfl, -⟩ := (well_shaped_iff _).1 hws
      exact Or.inr ⟨_, request_fields_well_shaped overlay t id method params⟩
    | false => exact Or.inl (by rw [shape_check_fails_eq, hws]; rfl)
  · rcases hret with h | ⟨b, h⟩ <;> rw [h] <;> simp
  · rcases hret with h | ⟨b, h⟩ <;> rw [h] <;> simp

/-- C17 (what the code does): the name of `msgpack_rpc_malformed_msg_error` is
the catalog name of its code; the name of every descriptor declared by
`MSGPACK_RPC_DECLARE_EXPECTED_TYPE_ERROR` is "kNeovimRPCWrongParamTypeError",
which is not the catalog name "NeovimRPCWrongParamTypeError" of its code 4. -/
theorem expected_type_error_name_differs (idl_type : String) :
    msgpack_rpc_malformed_msg_error.name =
      neovim_rpc_error_name msgpack_rpc_malformed_msg_error.code ∧
    (MSGPACK_RPC_EXPECTED_TYPE_ERROR idl_type).code.toNat = 4 ∧
    (MSGPACK_RPC_EXPECTED_TYPE_ERROR idl_type).name = "kNeovimRPCWrongParamTypeError" ∧
    neovim_rpc_error_name (MSGPACK_RPC_EXPECTED_TYPE_ERROR idl_type).code =
      "NeovimRPCWrongParamTypeError" ∧
    (MSGPACK_RPC_EXPECTED_TYPE_ERROR idl_type).name ≠
      neovim_rpc_error_name (MSGPACK_RPC_EXPECTED_TYPE_ERROR idl_type).code := by
  refine ⟨rfl, rfl, rfl, rfl, ?_⟩
  show "kNeovimRPCWrongParamTypeError" ≠ "NeovimRPCWrongParamTypeError"
  decide

theorem uint32_of_i64_view (overlay : msgpack_object → Nat) (u : Nat) :
    (via_i64 overlay (.positive_integer u) % 2 ^ 32).toNat = u % 2 ^ 32 := by
  simp only [via_i64, via_u64]
  split <;> omega

theorem unpack_uint_eq (overlay : msgpack_object → Nat) (s : HandlerScope) (idx : Nat)
    (q : msgpack_object) (rest : Nat → HandlerOutcome) (hq : s.params[idx]? = some q) :
    MSGPACK_RPC_UNPACK_PARAM_uint overlay s idx rest =
      match q with
      | .positive_integer u => rest (u % 2 ^ 32)
      | _ => ⟨.ok false, error_effects s (MSGPACK_RPC_EXPECTED_TYPE_ERROR "uint")⟩ := by
  cases q with
  | positive_integer u =>
    simp only [MSGPACK_RPC_UNPACK_PARAM_uint, MSGPACK_RPC_CHECK_PARAM_TYPE, ptr_at, hq,
      msgpack_object.type, ne_eq, not_true_eq_false, if_false]
    exact congrArg rest (uint32_of_i64_view overlay u)
  | _ =>
    simp [MSGPACK_RPC_UNPACK_PARAM_uint, MSGPACK_RPC_CHECK_PARAM_TYPE, ptr_at, hq,
      msgpack_object.type, error_effects]

/-- C18: `MSGPACK_RPC_UNPACK_PARAM_uint(idx)` goes on with the local `p_idx`
exactly when `params[idx]` has the positive-integer tag, returning `false`
from the handler otherwise; `p_idx` is the 64-bit value modulo `2 ^ 32`: the
value itself when it is below `2 ^ 32`, and a value of `2 ^ 32` or more is
not rejected but truncated. -/
theorem unpack_uint_truncates (overlay : msgpack_object → Nat) (s : HandlerScope) (idx : Nat)
    (q : msgpack_object) (rest : Nat → HandlerOutcome) (v : Nat)
    (hq : s.params[idx]? = some q) :
    MSGPACK_RPC_UNPACK_PARAM_uint overlay s idx rest =
      (match q with
      | .positive_integer u => rest (u % 2 ^ 32)
      | _ => ⟨.ok false, error_effects s (MSGPACK_RPC_EXPECTED_TYPE_ERROR "uint")⟩) ∧
    MSGPACK_RPC_UNPACK_PARAM_uint overlay
        { s with params := [.positive_integer (v % 2 ^ 32)] } 0 rest = rest (v % 2 ^ 32) ∧
    MSGPACK_RPC_UNPACK_PARAM_uint overlay
        { s with params := [.positive_integer (2 ^ 32 + v % 2 ^ 32)] } 0 rest =
      rest (v % 2 ^ 32) := by
  refine ⟨unpack_uint_eq overlay s idx q rest hq, ?_, ?_⟩
  · rw [unpack_uint_eq overlay { s with params := [.positive_integer (v % 2 ^ 32)] } 0
      (.positive_integer (v % 2 ^ 32)) rest rfl]
    simp
  · rw [unpack_uint_eq overlay { s with params := [.positive_integer (2 ^ 32 + v % 2 ^ 32)] } 0
      (.positive_integer (2 ^ 32 + v % 2 ^ 32)) rest rfl]
    simp

/-- Witness of C18: the value `2 ^ 32 + 5` at position 0 is bound as 5. -/
theorem unpack_uint_truncates_witness :
    MSGPACK_RPC_UNPACK_PARAM_uint (fun _ => 0) ⟨7, [.positive_integer 4294967301], some 1, true⟩
        0 (fun p => ⟨.ok (decide (p = 5)), []⟩) =
      (match msgpack_object.positive_integer 4294967301 with
      | .positive_integer u => (fun p => ⟨.ok (decide (p = 5)), []⟩) (u % 2 ^ 32)
      | _ => ⟨.ok false,
          error_effects ⟨7, [.positive_integer 4294967301], some 1, true⟩
            (MSGPACK_RPC_EXPECTED_TYPE_ERROR "uint")⟩) ∧
    MSGPACK_RPC_UNPACK_PARAM_uint (fun _ => 0)
        { ({ message_id := 7, params := [.positive_integer 4294967301], res := some 1,
              req := true } : HandlerScope) with
          params := [.positive_integer (3 % 2 ^ 32)] } 0
        (fun p => ⟨.ok (decide (p = 5)), []⟩) =
      (fun p => ⟨.ok (decide (p = 5)), []⟩) (3 % 2 ^ 32) ∧
    MSGPACK_RPC_UNPACK_PARAM_uint (fun _ => 0)
        { ({ message_id := 7, params := [.positive_integer 4294967301], res := some 1,
              req := true } : HandlerScope) with
          params := [.positive_integer (2 ^ 32 + 3 % 2 ^ 32)] } 0
        (fun p => ⟨.ok (decide (p = 5)), []⟩) =
      (fun p => ⟨.ok (decide (p = 5)), []⟩) (3 % 2 ^ 32) :=
  unpack_uint_truncates (fun _ => 0) ⟨7, [.positive_integer 4294967301], some 1, true⟩ 0
    (.positive_integer 4294967301) (fun p => ⟨.ok (decide (p = 5)), []⟩) 3 rfl
end MsgpackRPC
